import Mathlib

/-!
Verification of the runv VM-factory subsystem against its specification.

The development shallowly embeds two source files:
  * `factory/template/template.go` — the template Factory strategy
    (`New`, `NewFromExisted`, `Config`, `GetBaseVm`, `CloseFactory`);
  * the containerd command (`ContainerdCommand.Action`) — the daemon
    startup logic that selects exactly one Factory.

External effects (filesystem existence checks, `CreateTemplateVM`,
`NewVmFromTemplate`, `driverloader.Probe`, the random-string source) are
passed as explicit function parameters, so that every definition is a pure,
executable function of its inputs.  Code of the repository that is not part
of the given sources (the `template` core package, `direct.New`,
`pod.RandStr`) is modelled from the specification where needed; such
definitions carry a doc comment starting with `Modelled from the spec:`.
-/

/-- Persisted description of a template VM.  Field list follows the spec's
data model ("root path, name, BootConfig fields, driver name"); the fields
`driver`, `kernel`, `initrd` are the ones the containerd startup code reads
from the decoded descriptor. -/
structure TemplateVmConfig where
  statePath : String
  vmName : String
  driver : String
  kernel : String
  initrd : String
  cpu : Nat
  mem : Nat
  bios : String
  cbfs : String
  deriving Repr, DecidableEq

/-- Boot configuration value: everything needed to boot (or represent) a VM.
Field list follows the spec's data model. -/
structure BootConfig where
  kernel : String
  initrd : String
  driver : String
  cpu : Nat
  mem : Nat
  bios : String
  cbfs : String
  deriving Repr, DecidableEq

/-- Modelled from the spec: `TemplateVmConfig.BootConfigFromTemplate` (in the
`template` core package, not among the given sources) derives a BootConfig
from the Template VM Config: "same kernel/initrd/driver/sizing as the
template". -/
def TemplateVmConfig.bootConfigFromTemplate (s : TemplateVmConfig) : BootConfig :=
  { kernel := s.kernel
    initrd := s.initrd
    driver := s.driver
    cpu := s.cpu
    mem := s.mem
    bios := s.bios
    cbfs := s.cbfs }

/-- Factory values.  `direct` embeds the result of `direct.New(cpu, mem,
kernel, initrd)` (Direct strategy; per spec §4.2 its only state is the static
boot configuration); `template` embeds `&templateFactory{s: s}`. -/
inductive Factory where
  | direct (cpu mem : Nat) (kernel initrd : String)
  | template (s : TemplateVmConfig)
  deriving Repr, DecidableEq

/-- Modelled from the spec: BootConfig of a Direct factory — the static
configuration it was constructed with (spec §4.2); the driver field is the
globally probed driver, outside this module, left as the empty string. -/
def directBootConfig (cpu mem : Nat) (kernel initrd : String) : BootConfig :=
  { kernel := kernel
    initrd := initrd
    driver := ""
    cpu := cpu
    mem := mem
    bios := ""
    cbfs := "" }

/-- Embedding of `Config()`: the template branch returns
`t.s.BootConfigFromTemplate()` as in the source; the direct branch is
modelled from the spec (§4.2). -/
def Factory.config : Factory → BootConfig
  | .direct cpu mem kernel initrd => directBootConfig cpu mem kernel initrd
  | .template s => s.bootConfigFromTemplate

/-- Candidate VM name at loop iteration `n` of `New`'s name-picking loop:
`fmt.Sprintf("template-vm-%s", pod.RandStr(10, "alpha"))`, with the stream of
random identifiers given by `ids`. -/
def candName (ids : Nat → String) (n : Nat) : String :=
  "template-vm-" ++ ids n

/-- Embedding of the name-picking loop of `New`: repeatedly draw a candidate
name and exit as soon as `os.Stat(templateRoot + "/" + vmName)` reports that
the path does not exist.  The filesystem is abstracted by `fs`, mapping a
vmName to whether `templateRoot/<vmName>` exists; the loop is rendered as
the least index whose candidate is free, under the hypothesis `h` that some
candidate in the stream is free (the source loop does not terminate
otherwise). -/
def pickVmName (fs : String → Bool) (ids : Nat → String)
    (h : ∃ n, fs (candName ids n) = false) : String :=
  candName ids (Nat.find h)

/-- Embedding of `New(templateRoot, cpu, mem, kernel, initrd)`.  The
`CreateTemplateVM` call (in the `template` core package, not among the given
sources) is abstracted by the parameter `create`, receiving exactly the
source's arguments `(templateRoot+"/"+vmName, vmName, cpu, mem, kernel,
initrd, bios, cbfs)` with `bios` and `cbfs` the zero-value empty strings.
On error the source logs and returns `direct.New(cpu, mem, kernel, initrd)`;
on success it returns `&templateFactory{s: s}`. -/
def New {E : Type} (create : String → String → Nat → Nat → String → String →
      String → String → Except E TemplateVmConfig)
    (fs : String → Bool) (ids : Nat → String)
    (h : ∃ n, fs (candName ids n) = false)
    (templateRoot : String) (cpu mem : Nat) (kernel initrd : String) : Factory :=
  let vmName := pickVmName fs ids h
  match create (templateRoot ++ "/" ++ vmName) vmName cpu mem kernel initrd "" "" with
  | .error _ => .direct cpu mem kernel initrd
  | .ok s => .template s

/-- Embedding of `NewFromExisted(s)`: wraps the given config, nothing else.
It is a pure function of `s` alone — it takes no filesystem, creation or
hypervisor capability. -/
def NewFromExisted (s : TemplateVmConfig) : Factory :=
  .template s

/-- Embedding of `GetBaseVm()`.  The template branch returns
`t.s.NewVmFromTemplate("")` as in the source, with `NewVmFromTemplate`
abstracted by `clone`; the direct branch (whose body is `direct.New`'s
strategy, spec §4.2: cold-boot from the configured kernel/initrd) is
abstracted by `boot`. -/
def Factory.getBaseVm {Vm E : Type}
    (clone : TemplateVmConfig → String → Except E Vm)
    (boot : Nat → Nat → String → String → Except E Vm) :
    Factory → Except E Vm
  | .direct cpu mem kernel initrd => boot cpu mem kernel initrd
  | .template s => clone s ""

/-- State-passing form of `GetBaseVm`: the hypervisor world evolves through
`cloneW`/`bootW`, and the factory value is handed back with the result.  The
source methods never reassign any field of their receiver (`templateFactory`
holds only the pointer `s`, which `GetBaseVm` reads but never replaces), so
the returned factory is the receiver itself. -/
def Factory.getBaseVmW {Vm E W : Type}
    (cloneW : TemplateVmConfig → String → W → Except E Vm × W)
    (bootW : Nat → Nat → String → String → W → Except E Vm × W) :
    Factory → W → (Except E Vm × W) × Factory
  | f@(.direct cpu mem kernel initrd), w => (bootW cpu mem kernel initrd w, f)
  | f@(.template s), w => (cloneW s "" w, f)

/-- Execution of one `GetBaseVm` call in the state-passing form, keeping the
factory and the world and dropping the VM result. -/
def stepCall {Vm E W : Type}
    (cloneW : TemplateVmConfig → String → W → Except E Vm × W)
    (bootW : Nat → Nat → String → String → W → Except E Vm × W)
    (fw : Factory × W) : Factory × W :=
  let r := fw.1.getBaseVmW cloneW bootW fw.2
  (r.2, r.1.2)

/-- Execution of `n` consecutive `GetBaseVm` calls on a factory, threading
the hypervisor world through. -/
def runCalls {Vm E W : Type}
    (cloneW : TemplateVmConfig → String → W → Except E Vm × W)
    (bootW : Nat → Nat → String → String → W → Except E Vm × W)
    (n : Nat) : Factory × W → Factory × W :=
  (stepCall cloneW bootW)^[n]

/-- Hypervisor-side world for resource release: which template state paths
are currently live (backing snapshot present). -/
def HypWorld : Type := String → Bool

/-- Modelled from the spec: `TemplateVmConfig.Destroy` (in the `template`
core package, not among the given sources) "destroys the Template VM —
releasing its backing snapshot/shared-memory state"; release failures are
logged, never surfaced (spec §7, ResourceReleaseError), so the operation is
a total state transition that marks the template's backing state as gone. -/
def TemplateVmConfig.destroy (s : TemplateVmConfig) (w : HypWorld) : HypWorld :=
  fun p => if p = s.statePath then false else w p

/-- Embedding of `CloseFactory()`: the template branch calls
`t.s.Destroy()`; the direct strategy is stateless (spec §4.2), so closing it
releases nothing. -/
def Factory.closeFactory : Factory → HypWorld → HypWorld
  | .direct _ _ _ _, w => w
  | .template s, w => s.destroy w

/-! Embedding of the containerd command's startup logic
(`ContainerdCommand.Action`), up to the point where exactly one Factory has
been selected and the supervisor takes over. -/

/-- Global command-line flags read at the top of `Action`. -/
structure GlobalFlags where
  driver : String
  kernel : String
  initrd : String
  template : String
  deriving Repr, DecidableEq

/-- Factory expression the daemon builds: either
`singlefactory.New(templatefactory.NewFromExisted(tconfig))` or
`factory.NewFromConfigs(kernel, initrd, nil)`. -/
inductive SelectedFactory where
  | singleExisted (tconfig : TemplateVmConfig)
  | fromConfigs (kernel initrd : String)
  deriving Repr, DecidableEq

/-- Outcome of the startup logic, cut at factory selection.  `exitCode c`
is an `os.Exit(c)` reached before the driver probe; `exitProbe d` is the
`os.Exit(1)` taken when `driverloader.Probe(d)` fails; `started f d` means
the probe of driver `d` succeeded and the daemon selected factory `f`. -/
inductive ActionOutcome where
  | exitCode (c : Int)
  | exitProbe (driver : String)
  | started (f : SelectedFactory) (driver : String)
  deriving Repr, DecidableEq

/-- Driver name handed to `driverloader.Probe` by an outcome, when the flow
reached the probe at all. -/
def ActionOutcome.probedDriver : ActionOutcome → Option String
  | .exitCode _ => none
  | .exitProbe d => some d
  | .started _ d => some d

/-- Mismatch test between command-line overrides and the decoded template
descriptor, exactly as written in the source:
`(driver != "" && driver != tconfig.Driver) || (kernel != "" && kernel !=
tconfig.Kernel) || (initrd != "" && initrd != tconfig.Initrd)`. -/
def configMismatch (fl : GlobalFlags) (t : TemplateVmConfig) : Bool :=
  (fl.driver != "" && fl.driver != t.driver) ||
  (fl.kernel != "" && fl.kernel != t.kernel) ||
  (fl.initrd != "" && fl.initrd != t.initrd)

/-- Probe step shared by all paths that reach `driverloader.Probe`: on probe
failure the daemon logs and exits with status 1, otherwise it proceeds to
build the selected factory. -/
def probePhase (probe : String → Bool) (d : String) (f : SelectedFactory) :
    ActionOutcome :=
  if probe d then .started f d else .exitProbe d

/-- Embedding of `ContainerdCommand.Action`, cut at factory selection.
`readTemplate dir` abstracts opening and JSON-decoding `dir/config.json`
(`none` covers both the open failure, `os.Exit(-1)`, and the decode
failure, also `os.Exit(-1)`); `probe` abstracts `driverloader.Probe`.
The source control flow: when a template directory is supplied, decode its
descriptor; on a driver/kernel/initrd mismatch with non-empty overrides,
set `template = ""` (keeping the command-line driver); otherwise adopt the
descriptor's driver when none was given on the command line.  When no
template directory is supplied, require both kernel and initrd,
`os.Exit(1)` otherwise.  Then probe the driver, and select
`Single(NewFromExisted(tconfig))` when `template` is still non-empty,
`NewFromConfigs(kernel, initrd, nil)` otherwise. -/
def containerdAction (fl : GlobalFlags)
    (readTemplate : String → Option TemplateVmConfig)
    (probe : String → Bool) : ActionOutcome :=
  if fl.template != "" then
    match readTemplate fl.template with
    | none => .exitCode (-1)
    | some tconfig =>
      if configMismatch fl tconfig then
        probePhase probe fl.driver (.fromConfigs fl.kernel fl.initrd)
      else
        let driver := if fl.driver == "" then tconfig.driver else fl.driver
        probePhase probe driver (.singleExisted tconfig)
  else
    if fl.kernel == "" || fl.initrd == "" then
      .exitCode 1
    else
      probePhase probe fl.driver (.fromConfigs fl.kernel fl.initrd)

/-! Helper lemmas. -/

/-- Appending a fixed string on the left is injective. -/
theorem string_append_left_cancel (s a b : String) (h : s ++ a = s ++ b) :
    a = b := by
  have hd : s.data ++ a.data = s.data ++ b.data := by
    simpa [String.data_append] using congrArg String.data h
  exact String.ext (List.append_cancel_left hd)

/-- With an injective identifier stream, the candidate names are pairwise
distinct. -/
theorem candName_injective (ids : Nat → String)
    (hinj : Function.Injective ids) : Function.Injective (candName ids) := by
  intro a b hab
  exact hinj (string_append_left_cancel _ _ _ hab)

/-- Pigeonhole: an injective stream of strings cannot stay inside a finite
set for its first `S.card + 1` values. -/
theorem exists_fresh_index (S : Finset String) (g : Nat → String)
    (hinj : Function.Injective g) : ∃ n, n ≤ S.card ∧ g n ∉ S := by
  by_contra hc
  push_neg at hc
  have hsub : (Finset.range (S.card + 1)).image g ⊆ S := by
    intro x hx
    simp only [Finset.mem_image, Finset.mem_range] at hx
    obtain ⟨n, hn, rfl⟩ := hx
    exact hc n (Nat.lt_succ_iff.mp hn)
  have hcard : ((Finset.range (S.card + 1)).image g).card = S.card + 1 := by
    rw [Finset.card_image_of_injective _ hinj, Finset.card_range]
  have := Finset.card_le_card hsub
  omega

/-! Claim theorems. -/

/-- C1: for every templateRoot, cpu, mem, kernel and initrd, if
`CreateTemplateVM` fails for any reason (any error value `e`, whatever the
abstracted creation capability `create` is), `New` still returns the Factory
built by the Direct strategy with the originally requested cpu, mem, kernel
and initrd.  The failure is never surfaced to the caller: `New` returns a
plain `Factory` (never an error), matching the source signature. -/
theorem new_create_failure_returns_direct {E : Type}
    (create : String → String → Nat → Nat → String → String → String → String →
      Except E TemplateVmConfig)
    (fs : String → Bool) (ids : Nat → String)
    (h : ∃ n, fs (candName ids n) = false)
    (templateRoot : String) (cpu mem : Nat) (kernel initrd : String) (e : E)
    (hfail : create (templateRoot ++ "/" ++ pickVmName fs ids h)
        (pickVmName fs ids h) cpu mem kernel initrd "" "" = .error e) :
    New create fs ids h templateRoot cpu mem kernel initrd =
      Factory.direct cpu mem kernel initrd := by
  simp [New, hfail]

/-- Witness for C1 at a concrete input: a creation capability that always
fails makes `New` return the Direct factory with the requested sizing and
paths. -/
theorem new_create_failure_returns_direct_witness :
    New (fun _ _ _ _ _ _ _ _ =>
        (Except.error "creation failed" : Except String TemplateVmConfig))
      (fun _ => false) (fun _ => "aaaaaaaaaa") ⟨0, rfl⟩
      "/var/lib/templates" 1 128 "/boot/vmlinuz" "/boot/initrd.img" =
      Factory.direct 1 128 "/boot/vmlinuz" "/boot/initrd.img" :=
  new_create_failure_returns_direct
    (fun _ _ _ _ _ _ _ _ =>
      (Except.error "creation failed" : Except String TemplateVmConfig))
    (fun _ => false) (fun _ => "aaaaaaaaaa") ⟨0, rfl⟩
    "/var/lib/templates" 1 128 "/boot/vmlinuz" "/boot/initrd.img"
    "creation failed" rfl

/-- C2: against a directory whose pre-existing `template-vm-*` entries form
the finite set `S`, and with pairwise-distinct identifier draws (the model
of the random source), the name-picking loop terminates — some candidate is
free, and the loop index `Nat.find` is bounded by `S.card` — and the name
it returns is never in the pre-existing set: its candidate path did not
exist when the loop exited. -/
theorem name_loop_terminates_and_avoids_existing
    (S : Finset String) (ids : Nat → String)
    (hinj : Function.Injective ids) :
    ∃ h : ∃ n, (fun x => decide (x ∈ S)) (candName ids n) = false,
      Nat.find h ≤ S.card ∧
      pickVmName (fun x => decide (x ∈ S)) ids h ∉ S := by
  obtain ⟨n, hn, hfresh⟩ :=
    exists_fresh_index S (candName ids) (candName_injective ids hinj)
  have hex : ∃ m, (fun x => decide (x ∈ S)) (candName ids m) = false :=
    ⟨n, by simpa using hfresh⟩
  refine ⟨hex, le_trans (Nat.find_le (by simpa using hfresh)) hn, ?_⟩
  have := Nat.find_spec hex
  simpa [pickVmName] using this

/-- Witness for C2 at a concrete input: an empty directory and the
identifier stream of distinct strings of growing length. -/
theorem name_loop_terminates_and_avoids_existing_witness :
    ∃ h : ∃ n, (fun x => decide (x ∈ (∅ : Finset String)))
        (candName (fun m => String.mk (List.replicate m 'a')) n) = false,
      Nat.find h ≤ (∅ : Finset String).card ∧
      pickVmName (fun x => decide (x ∈ (∅ : Finset String)))
        (fun m => String.mk (List.replicate m 'a')) h ∉ (∅ : Finset String) :=
  name_loop_terminates_and_avoids_existing ∅
    (fun m => String.mk (List.replicate m 'a'))
    (fun a b hab => by simpa using congrArg (fun s => s.data.length) hab)

/-- C3: at daemon startup with a supplied (and successfully decoded)
template descriptor, whenever a non-empty command-line override of driver,
kernel or initrd disagrees with the descriptor, templating is disabled and
the daemon builds a fresh Factory from the requested (command-line) kernel
and initrd instead of `Single(NewFromExisted(...))`.  The mismatch is not
fatal: the outcome equation shows the daemon does not exit because of the
mismatch — the only remaining exit is the ordinary probe failure, which is
independent of the mismatch. -/
theorem mismatch_disables_template_and_is_nonfatal
    (fl : GlobalFlags) (readTemplate : String → Option TemplateVmConfig)
    (probe : String → Bool) (tconfig : TemplateVmConfig)
    (htmpl : fl.template ≠ "")
    (hread : readTemplate fl.template = some tconfig)
    (hmis : configMismatch fl tconfig = true) :
    containerdAction fl readTemplate probe =
      if probe fl.driver then
        .started (.fromConfigs fl.kernel fl.initrd) fl.driver
      else
        .exitProbe fl.driver := by
  simp [containerdAction, htmpl, hread, hmis, probePhase]

/-- Witness for C3 at a concrete input: the command line requests driver
"qemu" while the descriptor records driver "kvm"; the daemon proceeds to a
fresh `NewFromConfigs` factory and does not exit. -/
theorem mismatch_disables_template_and_is_nonfatal_witness :
    containerdAction ⟨"qemu", "", "", "/t"⟩
        (fun _ => some ⟨"/t/s", "vm", "kvm", "/k", "/i", 1, 128, "", ""⟩)
        (fun _ => true) =
      .started (.fromConfigs "" "") "qemu" := by
  have := mismatch_disables_template_and_is_nonfatal
    ⟨"qemu", "", "", "/t"⟩
    (fun _ => some ⟨"/t/s", "vm", "kvm", "/k", "/i", 1, 128, "", ""⟩)
    (fun _ => true) ⟨"/t/s", "vm", "kvm", "/k", "/i", 1, 128, "", ""⟩
    (by decide) rfl rfl
  simpa using this

/-- C4: for every template Factory, when the clone operation inside
`GetBaseVm` fails, the error is propagated unchanged to the caller; and the
result does not depend on the direct-boot capability at all — the template
Factory never falls back to the Direct strategy at clone time. -/
theorem clone_failure_propagates_without_fallback {Vm E : Type}
    (clone : TemplateVmConfig → String → Except E Vm)
    (boot : Nat → Nat → String → String → Except E Vm)
    (s : TemplateVmConfig) (e : E)
    (hfail : clone s "" = .error e) :
    (Factory.template s).getBaseVm clone boot = .error e ∧
    ∀ boot2, (Factory.template s).getBaseVm clone boot2 =
      (Factory.template s).getBaseVm clone boot := by
  exact ⟨by simpa [Factory.getBaseVm] using hfail, fun boot2 => rfl⟩

/-- Witness for C4 at a concrete input: a clone capability that fails with
a fixed error; the error comes back unchanged, also when the direct-boot
capability is replaced by a different one. -/
theorem clone_failure_propagates_without_fallback_witness :
    ((Factory.template ⟨"/t/s", "vm", "kvm", "/k", "/i", 1, 128, "", ""⟩).getBaseVm
        (fun _ _ => (Except.error "clone failed" : Except String Nat))
        (fun _ _ _ _ => Except.ok 7) = Except.error "clone failed") ∧
    ((Factory.template ⟨"/t/s", "vm", "kvm", "/k", "/i", 1, 128, "", ""⟩).getBaseVm
        (fun _ _ => (Except.error "clone failed" : Except String Nat))
        (fun _ _ _ _ => Except.ok 8) =
      (Factory.template ⟨"/t/s", "vm", "kvm", "/k", "/i", 1, 128, "", ""⟩).getBaseVm
        (fun _ _ => (Except.error "clone failed" : Except String Nat))
        (fun _ _ _ _ => Except.ok 7)) :=
  ⟨(clone_failure_propagates_without_fallback
      (fun _ _ => (Except.error "clone failed" : Except String Nat))
      (fun _ _ _ _ => Except.ok 7)
      ⟨"/t/s", "vm", "kvm", "/k", "/i", 1, 128, "", ""⟩ "clone failed" rfl).1,
   (clone_failure_propagates_without_fallback
      (fun _ _ => (Except.error "clone failed" : Except String Nat))
      (fun _ _ _ _ => Except.ok 7)
      ⟨"/t/s", "vm", "kvm", "/k", "/i", 1, 128, "", ""⟩ "clone failed" rfl).2
     (fun _ _ _ _ => Except.ok 8)⟩

/-- C5: for every Factory and every number of `GetBaseVm` calls (in the
state-passing form, with arbitrary hypervisor-world effects), the factory
value is unchanged — the source methods never reassign any receiver field —
and therefore `Config()`, a pure function of the factory value, returns an
identical BootConfig before and after the calls. -/
theorem config_immutable_under_getBaseVm {Vm E W : Type}
    (cloneW : TemplateVmConfig → String → W → Except E Vm × W)
    (bootW : Nat → Nat → String → String → W → Except E Vm × W)
    (f : Factory) (w : W) (n : Nat) :
    (runCalls cloneW bootW n (f, w)).1 = f ∧
    ((runCalls cloneW bootW n (f, w)).1).config = f.config := by
  have key : ∀ m (fw : Factory × W),
      ((stepCall cloneW bootW)^[m] fw).1 = fw.1 := by
    intro m
    induction m with
    | zero => intro fw; rfl
    | succ k ih =>
      intro fw
      rw [Function.iterate_succ_apply, ih]
      obtain ⟨f0, w0⟩ := fw
      cases f0 <;> rfl
  exact ⟨key n (f, w), by rw [show (runCalls cloneW bootW n (f, w)).1 = f from key n (f, w)]⟩

/-- C6: at daemon startup with a supplied (and successfully decoded)
template descriptor: when its recorded driver/kernel/initrd match the
requested ones (no mismatch) and the probe succeeds, the daemon builds
exactly `Single(NewFromExisted(tconfig))`; when they mismatch and the probe
succeeds, it builds a fresh Factory from the requested kernel/initrd.  The
outcome type carries exactly one selected Factory, chosen once on the
single pass through the startup logic. -/
theorem startup_selects_single_factory_on_match
    (fl : GlobalFlags) (readTemplate : String → Option TemplateVmConfig)
    (probe : String → Bool) (tconfig : TemplateVmConfig)
    (htmpl : fl.template ≠ "")
    (hread : readTemplate fl.template = some tconfig) :
    (configMismatch fl tconfig = false →
      probe (if fl.driver == "" then tconfig.driver else fl.driver) = true →
      containerdAction fl readTemplate probe =
        .started (.singleExisted tconfig)
          (if fl.driver == "" then tconfig.driver else fl.driver)) ∧
    (configMismatch fl tconfig = true →
      probe fl.driver = true →
      containerdAction fl readTemplate probe =
        .started (.fromConfigs fl.kernel fl.initrd) fl.driver) := by
  constructor
  · intro hmis hp
    have hp2 : probe (if fl.driver = "" then tconfig.driver else fl.driver) = true := by
      simpa using hp
    simp [containerdAction, htmpl, hread, hmis, probePhase, hp2]
  · intro hmis hp
    simp [containerdAction, htmpl, hread, hmis, probePhase, hp]

/-- Witness for C6 at concrete inputs: a descriptor matching the requested
kernel/initrd (no driver given) yields the single-wrapped existing-template
factory; a kernel mismatch yields the fresh factory from the requested
kernel/initrd. -/
theorem startup_selects_single_factory_on_match_witness :
    (containerdAction ⟨"", "/k", "/i", "/t"⟩
        (fun _ => some ⟨"/t/s", "vm", "kvm", "/k", "/i", 1, 128, "", ""⟩)
        (fun _ => true) =
      .started (.singleExisted ⟨"/t/s", "vm", "kvm", "/k", "/i", 1, 128, "", ""⟩)
        "kvm") ∧
    (containerdAction ⟨"", "/k2", "/i", "/t"⟩
        (fun _ => some ⟨"/t/s", "vm", "kvm", "/k", "/i", 1, 128, "", ""⟩)
        (fun _ => true) =
      .started (.fromConfigs "/k2" "/i") "") := by
  constructor
  · have := (startup_selects_single_factory_on_match
      ⟨"", "/k", "/i", "/t"⟩
      (fun _ => some ⟨"/t/s", "vm", "kvm", "/k", "/i", 1, 128, "", ""⟩)
      (fun _ => true) ⟨"/t/s", "vm", "kvm", "/k", "/i", 1, 128, "", ""⟩
      (by decide) rfl).1 rfl rfl
    simpa using this
  · have := (startup_selects_single_factory_on_match
      ⟨"", "/k2", "/i", "/t"⟩
      (fun _ => some ⟨"/t/s", "vm", "kvm", "/k", "/i", 1, 128, "", ""⟩)
      (fun _ => true) ⟨"/t/s", "vm", "kvm", "/k", "/i", 1, 128, "", ""⟩
      (by decide) rfl).2 rfl rfl
    simpa using this

/-- C7: `NewFromExisted(s)` attaches to the given Template VM Config for
every `s` without re-running template creation and without any re-check —
it is a pure function of `s` alone, taking no filesystem, creation or
hypervisor capability, and it succeeds unconditionally; an invalid or stale
config surfaces only later: `GetBaseVm` on the resulting factory returns
exactly the clone result for `s`, so any clone-time failure is where such a
config first shows. -/
theorem newFromExisted_attaches_without_recheck (s : TemplateVmConfig) :
    NewFromExisted s = Factory.template s ∧
    ∀ (Vm E : Type) (clone : TemplateVmConfig → String → Except E Vm)
      (boot : Nat → Nat → String → String → Except E Vm),
      (NewFromExisted s).getBaseVm clone boot = clone s "" :=
  ⟨rfl, fun _ _ _ _ => rfl⟩

/-- C8: with an identifier stream modelling `RandStr(10, "alpha")` — every
draw an alphanumeric string of fixed length 10 (modelled from the spec;
`pod.RandStr` is not among the given sources) — every name the picking loop
returns is `template-vm-<id>` with `<id>` a 10-character alphanumeric
identifier, and the candidate path formed by `New` is exactly
`templateRoot ++ "/" ++ "template-vm-" ++ id`. -/
theorem candidate_name_has_fixed_form (ids : Nat → String)
    (hlen : ∀ n, (ids n).length = 10)
    (halpha : ∀ n, ∀ c ∈ (ids n).data, c.isAlphanum = true)
    (fs : String → Bool) (h : ∃ n, fs (candName ids n) = false)
    (templateRoot : String) :
    ∃ id, pickVmName fs ids h = "template-vm-" ++ id ∧
      id.length = 10 ∧ (∀ c ∈ id.data, c.isAlphanum = true) ∧
      templateRoot ++ "/" ++ pickVmName fs ids h =
        templateRoot ++ "/" ++ "template-vm-" ++ id := by
  exact ⟨ids (Nat.find h), rfl, hlen _, halpha _,
    (String.append_assoc (templateRoot ++ "/") "template-vm-"
      (ids (Nat.find h))).symm⟩

/-- Witness for C8 at a concrete input: the constant stream drawing the
identifier "a0b1c2d3e4". -/
theorem candidate_name_has_fixed_form_witness :
    ∃ id, pickVmName (fun _ => false) (fun _ => "a0b1c2d3e4") ⟨0, rfl⟩ =
        "template-vm-" ++ id ∧
      id.length = 10 ∧ (∀ c ∈ id.data, c.isAlphanum = true) ∧
      "/var/lib/templates" ++ "/" ++
          pickVmName (fun _ => false) (fun _ => "a0b1c2d3e4") ⟨0, rfl⟩ =
        "/var/lib/templates" ++ "/" ++ "template-vm-" ++ id :=
  candidate_name_has_fixed_form (fun _ => "a0b1c2d3e4")
    (fun _ => rfl)
    (fun _ => by
      show ∀ c ∈ ("a0b1c2d3e4" : String).data, c.isAlphanum = true
      decide)
    (fun _ => false) ⟨0, rfl⟩ "/var/lib/templates"

/-- C9: `CloseFactory` is idempotent: for every Factory and every
hypervisor world, closing a second time leaves the world exactly as after
the first close.  The operation is a total function — it returns no error
and has no failing case — for both strategies. -/
theorem closeFactory_idempotent (f : Factory) (w : HypWorld) :
    f.closeFactory (f.closeFactory w) = f.closeFactory w := by
  cases f with
  | direct cpu mem kernel initrd => rfl
  | template s =>
    funext p
    simp only [Factory.closeFactory, TemplateVmConfig.destroy]
    by_cases hp : p = s.statePath <;> simp [hp]

/-- C10: at daemon startup, (a) when no template descriptor is supplied and
the kernel or the initrd argument is empty, the daemon exits with status 1 —
nonzero, and by construction of the outcome before any driver probe or
Factory selection; (b) when a matching descriptor is supplied and no
command-line driver is given, the driver handed to the hypervisor probe is
the descriptor's Driver field. -/
theorem startup_empty_args_exit_and_descriptor_driver
    (fl : GlobalFlags) (readTemplate : String → Option TemplateVmConfig)
    (probe : String → Bool) (tconfig : TemplateVmConfig) :
    (fl.template = "" → (fl.kernel = "" ∨ fl.initrd = "") →
      containerdAction fl readTemplate probe = .exitCode 1) ∧
    (fl.template ≠ "" → readTemplate fl.template = some tconfig →
      configMismatch fl tconfig = false → fl.driver = "" →
      (containerdAction fl readTemplate probe).probedDriver =
        some tconfig.driver) := by
  constructor
  · intro htmpl hki
    rcases hki with hk | hk <;>
      simp [containerdAction, htmpl, hk]
  · intro htmpl hread hmis hd
    cases hpb : probe tconfig.driver <;>
      simp [containerdAction, htmpl, hread, hmis, hd, probePhase, hpb,
        ActionOutcome.probedDriver]

/-- Witness for C10 at concrete inputs: no template and an empty kernel
argument exits with status 1; a matching descriptor with no command-line
driver probes the descriptor's driver "kvm". -/
theorem startup_empty_args_exit_and_descriptor_driver_witness :
    (containerdAction ⟨"", "", "/i", ""⟩ (fun _ => none) (fun _ => true) =
      .exitCode 1) ∧
    ((containerdAction ⟨"", "/k", "/i", "/t"⟩
        (fun _ => some ⟨"/t/s", "vm", "kvm", "/k", "/i", 1, 128, "", ""⟩)
        (fun _ => true)).probedDriver = some "kvm") :=
  ⟨(startup_empty_args_exit_and_descriptor_driver ⟨"", "", "/i", ""⟩
      (fun _ => none) (fun _ => true)
      ⟨"/t/s", "vm", "kvm", "/k", "/i", 1, 128, "", ""⟩).1 rfl (Or.inl rfl),
   (startup_empty_args_exit_and_descriptor_driver ⟨"", "/k", "/i", "/t"⟩
      (fun _ => some ⟨"/t/s", "vm", "kvm", "/k", "/i", 1, 128, "", ""⟩)
      (fun _ => true)
      ⟨"/t/s", "vm", "kvm", "/k", "/i", 1, 128, "", ""⟩).2
      (by decide) rfl rfl rfl⟩
